import Mathlib

/-!
Verification of the dropout-based gene-selection design of
`orangecontrib/single_cell/widgets/owdropout.py`.

The widget code (`OWDropout.select_genes`, `OWDropout.commit`,
`DropoutGraph.__get_xlim`, the `less_selected` warning) is embedded from the
source file.  The preprocessing core it calls
(`DropoutGeneSelection.select_genes`, `DropoutGeneSelection.filter_columns`,
the threshold) lives in `scpreprocess.py`, which is not part of the sources
at hand; those operations are modelled from the design specification, as
noted on each definition.
-/

namespace Dropout

/-- An expression matrix: rows are cells, columns are genes.  Entries are
modelled as real numbers (the source uses floating point). -/
abbrev ExpressionMatrix := List (List ℝ)

/-- Number of cells (rows) of the matrix. -/
def nCells (m : ExpressionMatrix) : ℕ := m.length

/-- Number of genes (columns) of the matrix, read off the first row. -/
def nGenes (m : ExpressionMatrix) : ℕ := (m.headD []).length

/-- The entries of column `j`, one per row (missing entries read as 0). -/
def colEntries (m : ExpressionMatrix) (j : ℕ) : List ℝ :=
  m.map (fun row => row.getD j 0)

/-- Per-gene statistics: `mean_expr` is the mean of the log2-transformed
nonzero entries of the gene's column (`none` models the NaN produced when the
column has no nonzero entry), `zero_rate` is the fraction of zero entries. -/
structure GeneStats where
  mean_expr : Option ℝ
  zero_rate : ℝ

/-- The exponential-curve coefficients `(decay a, x_offset b, y_offset c)`
defining `y = exp (-a * (x - b)) + c`. -/
structure CurveParams where
  decay : ℝ
  x_offset : ℝ
  y_offset : ℝ

/-- Modelled from the spec (DropoutStatsComputer): the fraction of zero
entries of a column. -/
noncomputable def zero_rate (col : List ℝ) : ℝ :=
  (col.countP (fun x => decide (x = 0)) : ℕ) / (col.length : ℝ)

/-- Modelled from the spec (DropoutStatsComputer): the mean of the
log2-transformed nonzero entries of a column; `none` (NaN) when the column
has no nonzero entry. -/
noncomputable def mean_expr (col : List ℝ) : Option ℝ :=
  let nz := col.filter (fun x => decide (¬x = 0))
  if nz.length = 0 then none
  else some ((nz.map (fun v => Real.logb 2 v)).sum / (nz.length : ℝ))

/-- Modelled from the spec (`DropoutStatsComputer.compute`, the statistics
pass of the missing `DropoutGeneSelection`): per-gene statistics, one entry
per column. -/
noncomputable def compute_stats (m : ExpressionMatrix) : List GeneStats :=
  (List.range (nGenes m)).map
    (fun j => ⟨mean_expr (colEntries m j), zero_rate (colEntries m j)⟩)

/-- The exponential decay curve `y = exp (-a * (x - b)) + c` (source:
`np.exp(-results.decay * (x - results.x_offset)) + results.y_offset`). -/
noncomputable def curve (p : CurveParams) (x : ℝ) : ℝ :=
  Real.exp (-p.decay * (x - p.x_offset)) + p.y_offset

/-- Modelled from the spec (ByEquation policy of the missing
`DropoutGeneSelection.select_genes`): a gene is selected when its point lies
strictly below the curve; a NaN `mean_expr` is never selected. -/
noncomputable def belowCurve (p : CurveParams) (g : GeneStats) : Bool :=
  match g.mean_expr with
  | none => false
  | some μ => decide (g.zero_rate < curve p μ)

/-- Modelled from the spec: the ByEquation selection mask over the genes. -/
noncomputable def byEquationMask (p : CurveParams) (stats : List GeneStats) :
    List Bool :=
  stats.map (belowCurve p)

/-- Modelled from the spec (ByNumber policy): a gene's ranking key, the
distance by which its `zero_rate` undershoots the reference curve at its
`mean_expr`; `none` for a NaN `mean_expr`. -/
noncomputable def gene_score (p : CurveParams) (g : GeneStats) : Option ℝ :=
  g.mean_expr.map (fun μ => curve p μ - g.zero_rate)

/-- Modelled from the spec (ByNumber policy): gene `j` strictly precedes
gene `i` in the ranking when both have defined scores and `j`'s score is
larger, or the scores tie and `j` has the smaller original column index. -/
noncomputable def beatsB (s : List (Option ℝ)) (j i : ℕ) : Bool :=
  match s.getD j none, s.getD i none with
  | some a, some b => decide (b < a) || (decide (a = b) && decide (j < i))
  | _, _ => false

/-- The number of genes strictly preceding gene `i` in the ranking. -/
noncomputable def rank (s : List (Option ℝ)) (i : ℕ) : ℕ :=
  ((Finset.range s.length).filter (fun j => beatsB s j i = true)).card

/-- Modelled from the spec (ByNumber policy): the mask keeping the genes
with a defined score whose ranking position is below `n`. -/
noncomputable def selMask (s : List (Option ℝ)) (n : ℕ) : List Bool :=
  (List.range s.length).map
    (fun i =>
      match s.getD i none with
      | none => false
      | some _ => decide (rank s i < n))

/-- Modelled from the spec: the ByNumber selection mask over the genes,
ranking by `gene_score` against the sticky reference curve. -/
noncomputable def byNumberMask (p : CurveParams) (n : ℕ)
    (stats : List GeneStats) : List Bool :=
  selMask (stats.map (gene_score p)) n

/-- The indices of genes with a defined score. -/
def validSet (s : List (Option ℝ)) : Finset ℕ :=
  (Finset.range s.length).filter (fun j => (s.getD j none).isSome = true)

/-- The number of genes with a defined (non-NaN) `mean_expr`. -/
def validCount (stats : List GeneStats) : ℕ :=
  (stats.filter (fun g => g.mean_expr.isSome)).length

/-- The selection policy: either a fixed gene count or explicit curve
coefficients. -/
inductive Policy where
  | byNumber (n : ℕ)
  | byEquation (decay x_offset y_offset : ℝ)

/-- The errors of the design: empty input to the selector, and a mask whose
length disagrees with the dataset's column count. -/
inductive SelectionError where
  | emptyInput
  | dimensionMismatch
deriving DecidableEq

/-- Modelled from the spec: the threshold is 0 when the y_offset-driven
lower bound is degenerate, else `2 ^ x_offset` (the inverse of the log2
transform). -/
noncomputable def thresholdOf (degenerate : Bool) (x_offset : ℝ) : ℝ :=
  if degenerate then 0 else (2 : ℝ) ^ x_offset

/-- The result of a selection run: the mask, the statistics, the curve
coefficients actually used, and the derived threshold. -/
structure SelectionResult where
  mask : List Bool
  stats : List GeneStats
  params : CurveParams
  threshold : ℝ

/-- Modelled from the spec (`DropoutGeneSelection.select_genes`, missing
from the sources at hand): fails with `emptyInput` on a matrix with zero
cells or zero genes; otherwise computes the statistics and selects either
the top `n` genes by ranking (ByNumber, against the sticky curve) or the
genes strictly below the supplied curve (ByEquation).  The returned
coefficients are the supplied ones for ByEquation and the sticky ones for
ByNumber; the y_offset-driven lower bound is modelled as degenerate when
`1 ≤ y_offset` (the curve then never falls below the maximal zero rate). -/
noncomputable def select_genes (m : ExpressionMatrix) (policy : Policy)
    (sticky : CurveParams) : Except SelectionError SelectionResult :=
  if nCells m = 0 ∨ nGenes m = 0 then .error .emptyInput
  else
    match policy with
    | .byNumber n =>
        .ok ⟨byNumberMask sticky n (compute_stats m), compute_stats m, sticky,
             thresholdOf (decide ((1 : ℝ) ≤ sticky.y_offset)) sticky.x_offset⟩
    | .byEquation a b c =>
        .ok ⟨byEquationMask ⟨a, b, c⟩ (compute_stats m), compute_stats m,
             ⟨a, b, c⟩, thresholdOf (decide ((1 : ℝ) ≤ c)) b⟩

/-- Modelled from the spec (`DropoutGeneSelection.filter_columns`, missing
from the sources at hand): keep exactly the columns where the mask is true;
fail with `dimensionMismatch` when the mask length differs from the column
count.  The dataset is given column-major. -/
def filter_columns (cols : List (List ℝ)) (mask : List Bool) :
    Except SelectionError (List (List ℝ)) :=
  if mask.length = cols.length then
    .ok (((cols.zip mask).filter (fun p => p.2)).map (fun p => p.1))
  else .error .dimensionMismatch

/-- The columns of a row-major matrix, for feeding `filter_columns`. -/
def matrixColumns (m : ExpressionMatrix) : List (List ℝ) :=
  (List.range (nGenes m)).map (fun j => colEntries m j)

/-- Source `DropoutGraph.__get_xlim`: the plotted x-range is
`(0 if threshold == 0 else log2 threshold, ceil (nanmax x))`; the NaN
entries of `x` are the `none`s, ignored by the max. -/
noncomputable def get_xlim (threshold : ℝ) (x : List (Option ℝ)) : ℝ × ℝ :=
  (if threshold = 0 then 0 else Real.logb 2 threshold,
   ((⌈(x.reduceOption).foldr max 0⌉ : ℤ) : ℝ))

/-- The widget state of `OWDropout`: the input data, the stored selection,
the sticky curve coefficients, the requested gene count, the filter mode
(`byNumberMode = true` is `FilterType.ByNumber`), and the `less_selected`
warning (`some k` = warning shown with count `k`). -/
structure WState where
  data : Option ExpressionMatrix
  selected : Option (List Bool)
  decay : ℝ
  x_offset : ℝ
  y_offset : ℝ
  n_genes : ℕ
  byNumberMode : Bool
  warnLessSelected : Option ℕ

/-- Source `OWDropout.select_genes` (lines 173-195): clear the warning;
return unchanged on falsy data (no data, or a table with zero rows); build
the selector from the mode's parameters; store the mask and the selector's
coefficients back; warn when fewer genes than requested were selected in
ByNumber mode.  An error from the selector propagates. -/
noncomputable def widget_select_genes (s : WState) :
    Except SelectionError WState :=
  match s.data with
  | none => .ok { s with warnLessSelected := none }
  | some m =>
    if nCells m = 0 then .ok { s with warnLessSelected := none }
    else
      let policy := if s.byNumberMode then Policy.byNumber s.n_genes
                    else Policy.byEquation s.decay s.x_offset s.y_offset
      match select_genes m policy ⟨s.decay, s.x_offset, s.y_offset⟩ with
      | .error e => .error e
      | .ok r =>
          let k := r.mask.count true
          let s2 : WState :=
            { s with warnLessSelected := none, selected := some r.mask,
                     decay := r.params.decay, x_offset := r.params.x_offset,
                     y_offset := r.params.y_offset }
          .ok (if k < s.n_genes ∧ s.byNumberMode = true
               then { s2 with warnLessSelected := some k } else s2)

/-- Source `OWDropout.commit` (lines 214-219): with no stored selection the
output channel receives `None` (modelled as `none`); otherwise the filtered
dataset (or the filtering error) is sent. -/
def widget_commit (s : WState) :
    Option (Except SelectionError (List (List ℝ))) :=
  match s.selected with
  | none => none
  | some mask => some (filter_columns (matrixColumns (s.data.getD [])) mask)

/-! Basic list access lemmas. -/

theorem getD_eq_get? {α : Type _} (l : List α) (i : ℕ) (d : α) :
    l.getD i d = (l.get? i).getD d := by
  rw [List.getD_eq_getElem?_getD, List.get?_eq_getElem?]

theorem getD_of_length_le {α : Type _} {l : List α} {i : ℕ} (h : l.length ≤ i)
    (d : α) : l.getD i d = d := by
  rw [List.getD_eq_getElem?_getD, List.getElem?_eq_none h]
  rfl

theorem getD_some_lt_length {s : List (Option ℝ)} {j : ℕ} {a : ℝ}
    (h : s.getD j none = some a) : j < s.length := by
  by_contra hlt
  rw [getD_of_length_le (le_of_not_lt hlt)] at h
  exact Option.noConfusion h

/-! The ranking order underlying the ByNumber policy. -/

theorem beatsB_true_iff (s : List (Option ℝ)) (j i : ℕ) :
    beatsB s j i = true ↔
      ∃ a b, s.getD j none = some a ∧ s.getD i none = some b ∧
        (b < a ∨ (a = b ∧ j < i)) := by
  unfold beatsB
  cases hj : s.getD j none with
  | none => simp
  | some a =>
    cases hi : s.getD i none with
    | none => simp
    | some b =>
      simp [Bool.or_eq_true, Bool.and_eq_true, decide_eq_true_eq]

theorem beatsB_irrefl (s : List (Option ℝ)) (i : ℕ) : beatsB s i i = false := by
  unfold beatsB
  cases h : s.getD i none with
  | none => simp
  | some a => simp [lt_irrefl]

theorem beatsB_trans (s : List (Option ℝ)) {k j i : ℕ}
    (h1 : beatsB s k j = true) (h2 : beatsB s j i = true) :
    beatsB s k i = true := by
  obtain ⟨a, b, hk, hj, hab⟩ := (beatsB_true_iff s k j).1 h1
  obtain ⟨b', c, hj', hi, hbc⟩ := (beatsB_true_iff s j i).1 h2
  rw [hj] at hj'
  injection hj' with hb
  subst hb
  refine (beatsB_true_iff s k i).2 ⟨a, c, hk, hi, ?_⟩
  rcases hab with hab | ⟨hab, hkj⟩ <;> rcases hbc with hbc | ⟨hbc, hji⟩
  · exact Or.inl (lt_trans hbc hab)
  · exact Or.inl (hbc ▸ hab)
  · exact Or.inl (by rw [hab]; exact hbc)
  · exact Or.inr ⟨hab.trans hbc, Nat.lt_trans hkj hji⟩

theorem beatsB_total (s : List (Option ℝ)) {i j : ℕ} {a b : ℝ}
    (hi : s.getD i none = some a) (hj : s.getD j none = some b) (hij : i ≠ j) :
    beatsB s i j = true ∨ beatsB s j i = true := by
  rcases lt_trichotomy a b with h | h | h
  · exact Or.inr ((beatsB_true_iff s j i).2 ⟨b, a, hj, hi, Or.inl h⟩)
  · rcases Nat.lt_or_ge i j with hij' | hij'
    · exact Or.inl ((beatsB_true_iff s i j).2 ⟨a, b, hi, hj, Or.inr ⟨h, hij'⟩⟩)
    · have hji : j < i := lt_of_le_of_ne hij' (Ne.symm hij)
      exact Or.inr ((beatsB_true_iff s j i).2 ⟨b, a, hj, hi, Or.inr ⟨h.symm, hji⟩⟩)
  · exact Or.inl ((beatsB_true_iff s i j).2 ⟨a, b, hi, hj, Or.inl h⟩)

theorem mem_validSet {s : List (Option ℝ)} {i : ℕ} :
    i ∈ validSet s ↔ i < s.length ∧ (s.getD i none).isSome = true := by
  simp [validSet]

theorem rank_lt_rank (s : List (Option ℝ)) {j i : ℕ}
    (h : beatsB s j i = true) : rank s j < rank s i := by
  have hsub : (Finset.range s.length).filter (fun k => beatsB s k j = true) ⊆
      (Finset.range s.length).filter (fun k => beatsB s k i = true) := by
    intro k hk
    simp only [Finset.mem_filter] at hk ⊢
    exact ⟨hk.1, beatsB_trans s hk.2 h⟩
  have hjlen : j < s.length := by
    obtain ⟨a, b, hj, hi, _⟩ := (beatsB_true_iff s j i).1 h
    exact getD_some_lt_length hj
  exact Finset.card_lt_card ((Finset.ssubset_iff_of_subset hsub).2
    ⟨j, by simp [hjlen, h], by simp [beatsB_irrefl]⟩)

theorem rank_injOn (s : List (Option ℝ)) :
    Set.InjOn (rank s) (validSet s) := by
  intro i hi j hj hij
  by_contra hne
  have hi' := mem_validSet.1 (Finset.mem_coe.1 hi)
  have hj' := mem_validSet.1 (Finset.mem_coe.1 hj)
  obtain ⟨a, ha⟩ := Option.isSome_iff_exists.1 hi'.2
  obtain ⟨b, hb⟩ := Option.isSome_iff_exists.1 hj'.2
  rcases beatsB_total s ha hb hne with h | h
  · exact absurd hij (Nat.ne_of_lt (rank_lt_rank s h))
  · exact absurd hij.symm (Nat.ne_of_lt (rank_lt_rank s h))

theorem rank_lt_card (s : List (Option ℝ)) {i : ℕ} (hi : i ∈ validSet s) :
    rank s i < (validSet s).card := by
  have hsub : (Finset.range s.length).filter (fun j => beatsB s j i = true) ⊆
      (validSet s).erase i := by
    intro k hk
    simp only [Finset.mem_filter, Finset.mem_range] at hk
    obtain ⟨a, b, hka, _, _⟩ := (beatsB_true_iff s k i).1 hk.2
    refine Finset.mem_erase.2 ⟨?_, mem_validSet.2 ⟨hk.1, by rw [hka]; rfl⟩⟩
    rintro rfl
    rw [beatsB_irrefl] at hk
    exact Bool.noConfusion hk.2
  have h1 : rank s i ≤ ((validSet s).erase i).card := Finset.card_le_card hsub
  have h2 : ((validSet s).erase i).card = (validSet s).card - 1 :=
    Finset.card_erase_of_mem hi
  have h3 : 0 < (validSet s).card := Finset.card_pos.2 ⟨i, hi⟩
  omega

theorem image_rank (s : List (Option ℝ)) :
    (validSet s).image (rank s) = Finset.range (validSet s).card := by
  apply Finset.eq_of_subset_of_card_le
  · intro x hx
    obtain ⟨i, hi, rfl⟩ := Finset.mem_image.1 hx
    exact Finset.mem_range.2 (rank_lt_card s hi)
  · rw [Finset.card_range, Finset.card_image_of_injOn (rank_injOn s)]

theorem card_rank_filter (s : List (Option ℝ)) (n : ℕ) :
    ((validSet s).filter (fun i => rank s i < n)).card =
      min n (validSet s).card := by
  have himg : ((validSet s).filter (fun i => rank s i < n)).image (rank s) =
      (Finset.range (validSet s).card).filter (fun x => x < n) := by
    rw [← image_rank s, Finset.filter_image]
  have hinj : Set.InjOn (rank s)
      ((validSet s).filter (fun i => rank s i < n)) :=
    (rank_injOn s).mono (Finset.coe_subset.2 (Finset.filter_subset _ _))
  have hcard := Finset.card_image_of_injOn hinj
  have hrange : (Finset.range (validSet s).card).filter (fun x => x < n) =
      Finset.range (min n (validSet s).card) := by
    ext x
    simp only [Finset.mem_filter, Finset.mem_range]
    omega
  rw [← hcard, himg, hrange, Finset.card_range]

/-! The ByNumber selection mask. -/

theorem selMask_length (s : List (Option ℝ)) (n : ℕ) :
    (selMask s n).length = s.length := by
  simp [selMask]

theorem selMask_getD (s : List (Option ℝ)) (n i : ℕ) (h : i < s.length) :
    (selMask s n).getD i false =
      (match s.getD i none with
       | none => false
       | some _ => decide (rank s i < n)) := by
  unfold selMask
  rw [List.getD_eq_getElem?_getD, List.getElem?_map, List.getElem?_range h]
  rfl

theorem selMask_getD_true_iff (s : List (Option ℝ)) (n i : ℕ) :
    (selMask s n).getD i false = true ↔
      ((s.getD i none).isSome = true ∧ rank s i < n) := by
  by_cases h : i < s.length
  · rw [selMask_getD s n i h]
    cases hs : s.getD i none with
    | none => simp
    | some a => simp
  · have h1 : (selMask s n).getD i false = false :=
      getD_of_length_le (by rw [selMask_length]; omega) false
    have h2 : s.getD i none = none :=
      getD_of_length_le (by omega) none
    rw [h1, h2]
    simp

theorem countP_range_card (G : ℕ) (f : ℕ → Bool) :
    (List.range G).countP f = ((Finset.range G).filter (fun i => f i = true)).card := by
  induction G with
  | zero => simp
  | succ g ih =>
    rw [List.range_succ, List.countP_append, Finset.range_succ,
      Finset.filter_insert]
    by_cases h : f g = true
    · rw [if_pos h, Finset.card_insert_of_not_mem (by simp)]
      simp [List.countP_cons, h, ih]
    · rw [if_neg h]
      simp [List.countP_cons, h, ih]

theorem count_true_map {α : Type _} (l : List α) (f : α → Bool) :
    (l.map f).count true = l.countP f := by
  induction l with
  | nil => rfl
  | cons a t ih =>
    rw [List.map_cons, List.count_cons, List.countP_cons, ih]
    cases h : f a <;> simp [h]

theorem count_selMask (s : List (Option ℝ)) (n : ℕ) :
    (selMask s n).count true =
      ((validSet s).filter (fun i => rank s i < n)).card := by
  have h1 : (selMask s n).count true =
      (List.range s.length).countP
        (fun i =>
          match s.getD i none with
          | none => false
          | some _ => decide (rank s i < n)) := by
    unfold selMask
    exact count_true_map _ _
  rw [h1, countP_range_card]
  congr 1
  ext i
  simp only [Finset.mem_filter, Finset.mem_range, validSet]
  cases hs : s.getD i none with
  | none => simp
  | some a => simp [hs]

theorem count_selMask_eq_min (s : List (Option ℝ)) (n : ℕ) :
    (selMask s n).count true = min n (validSet s).card := by
  rw [count_selMask, card_rank_filter]

/-! Bridging the score list back to the gene statistics. -/

theorem scores_getD_of_get? (p : CurveParams) (stats : List GeneStats)
    {i : ℕ} {g : GeneStats} (h : stats.get? i = some g) :
    (stats.map (gene_score p)).getD i none = gene_score p g := by
  rw [getD_eq_get?, List.get?_map, h]
  rfl

theorem scores_getD_of_get?_none (p : CurveParams) (stats : List GeneStats)
    {i : ℕ} (h : stats.get? i = none) :
    (stats.map (gene_score p)).getD i none = none := by
  rw [getD_eq_get?, List.get?_map, h]
  rfl

theorem countP_range_get? {α : Type _} (l : List α) (q : Option α → Bool) :
    (List.range l.length).countP (fun i => q (l.get? i)) =
      l.countP (fun a => q (some a)) := by
  induction l with
  | nil => simp
  | cons a t ih =>
    rw [show (a :: t).length = t.length + 1 from rfl, List.range_succ_eq_map,
      List.countP_cons, List.countP_map, List.countP_cons]
    have hc : ((fun i => q ((a :: t).get? i)) ∘ (fun x => x + 1)) =
        (fun i => q (t.get? i)) := rfl
    rw [hc, ih]
    rfl

theorem validCard_eq_validCount (p : CurveParams) (stats : List GeneStats) :
    (validSet (stats.map (gene_score p))).card = validCount stats := by
  have h0 : (validSet (stats.map (gene_score p))).card =
      (List.range (stats.map (gene_score p)).length).countP
        (fun i => ((stats.map (gene_score p)).getD i none).isSome) := by
    rw [countP_range_card]
    rfl
  rw [h0]
  have h1 : (fun i => (((stats.map (gene_score p)).getD i none)).isSome) =
      (fun i => (((stats.map (gene_score p)).get? i).getD none).isSome) := by
    funext i
    rw [getD_eq_get?]
  rw [List.length_map, show (List.range stats.length) =
    (List.range (stats.map (gene_score p)).length) by rw [List.length_map]]
  rw [h1]
  have h2 : (fun i => (((stats.map (gene_score p)).get? i).getD none).isSome) =
      (fun i => ((stats.get? i).map (gene_score p)).getD none |>.isSome) := by
    funext i
    rw [List.get?_map]
  rw [List.length_map, h2]
  have h3 := countP_range_get? stats
    (fun o => ((o.map (gene_score p)).getD none).isSome)
  rw [h3]
  have h4 : (fun a => (((some a).map (gene_score p)).getD none).isSome) =
      (fun g : GeneStats => g.mean_expr.isSome) := by
    funext g
    show (gene_score p g).isSome = g.mean_expr.isSome
    unfold gene_score
    rw [Option.isSome_map']
  rw [h4, validCount, List.countP_eq_length_filter]

/-! Evaluation and inversion of `select_genes`. -/

theorem select_genes_ok_not_empty {m : ExpressionMatrix} {p : Policy}
    {sticky : CurveParams} {r : SelectionResult}
    (h : select_genes m p sticky = .ok r) :
    ¬(nCells m = 0 ∨ nGenes m = 0) := by
  intro he
  unfold select_genes at h
  rw [if_pos he] at h
  exact Except.noConfusion h

theorem select_genes_ok_byNumber (m : ExpressionMatrix) (n : ℕ)
    (sticky : CurveParams) (h : ¬(nCells m = 0 ∨ nGenes m = 0)) :
    select_genes m (.byNumber n) sticky =
      .ok ⟨byNumberMask sticky n (compute_stats m), compute_stats m, sticky,
           thresholdOf (decide ((1 : ℝ) ≤ sticky.y_offset)) sticky.x_offset⟩ := by
  unfold select_genes
  rw [if_neg h]

theorem select_genes_ok_byEquation (m : ExpressionMatrix) (a b c : ℝ)
    (sticky : CurveParams) (h : ¬(nCells m = 0 ∨ nGenes m = 0)) :
    select_genes m (.byEquation a b c) sticky =
      .ok ⟨byEquationMask ⟨a, b, c⟩ (compute_stats m), compute_stats m,
           ⟨a, b, c⟩, thresholdOf (decide ((1 : ℝ) ≤ c)) b⟩ := by
  unfold select_genes
  rw [if_neg h]

theorem select_genes_byNumber_inv {m : ExpressionMatrix} {n : ℕ}
    {sticky : CurveParams} {r : SelectionResult}
    (h : select_genes m (.byNumber n) sticky = .ok r) :
    r = ⟨byNumberMask sticky n (compute_stats m), compute_stats m, sticky,
         thresholdOf (decide ((1 : ℝ) ≤ sticky.y_offset)) sticky.x_offset⟩ := by
  have he := select_genes_ok_not_empty h
  rw [select_genes_ok_byNumber m n sticky he] at h
  injection h with h
  exact h.symm

theorem select_genes_byEquation_inv {m : ExpressionMatrix} {a b c : ℝ}
    {sticky : CurveParams} {r : SelectionResult}
    (h : select_genes m (.byEquation a b c) sticky = .ok r) :
    r = ⟨byEquationMask ⟨a, b, c⟩ (compute_stats m), compute_stats m,
         ⟨a, b, c⟩, thresholdOf (decide ((1 : ℝ) ≤ c)) b⟩ := by
  have he := select_genes_ok_not_empty h
  rw [select_genes_ok_byEquation m a b c sticky he] at h
  injection h with h
  exact h.symm

theorem compute_stats_length (m : ExpressionMatrix) :
    (compute_stats m).length = nGenes m := by
  simp [compute_stats]

/-! The ByEquation selection mask. -/

theorem byEquationMask_length (p : CurveParams) (stats : List GeneStats) :
    (byEquationMask p stats).length = stats.length := by
  simp [byEquationMask]

theorem byEquationMask_getD (p : CurveParams) (stats : List GeneStats)
    {i : ℕ} {g : GeneStats} (h : stats.get? i = some g) :
    (byEquationMask p stats).getD i false = belowCurve p g := by
  unfold byEquationMask
  rw [getD_eq_get?, List.get?_map, h]
  rfl

theorem byEquationMask_getD_of_none (p : CurveParams) (stats : List GeneStats)
    {i : ℕ} (h : stats.get? i = none) :
    (byEquationMask p stats).getD i false = false := by
  unfold byEquationMask
  rw [getD_eq_get?, List.get?_map, h]
  rfl

theorem belowCurve_true_iff (p : CurveParams) (g : GeneStats) :
    belowCurve p g = true ↔
      ∃ μ, g.mean_expr = some μ ∧ g.zero_rate < curve p μ := by
  unfold belowCurve
  cases h : g.mean_expr with
  | none => simp
  | some μ => simp [decide_eq_true_eq]

/-! Concrete evaluations used by the witnesses. -/

theorem mean_expr_single_one : mean_expr [(1 : ℝ)] = some 0 := by
  have hd : (decide (¬(1 : ℝ) = 0)) = true := by
    rw [decide_eq_true_eq]
    norm_num
  unfold mean_expr
  rw [show List.filter (fun x : ℝ => decide (¬x = 0)) [(1 : ℝ)] = [1] by
    simp [List.filter_cons, hd]]
  norm_num [Real.logb_one]

theorem zero_rate_single_one : zero_rate [(1 : ℝ)] = 0 := by
  have hd : (decide ((1 : ℝ) = 0)) = false := by
    rw [decide_eq_false_iff_not]
    norm_num
  unfold zero_rate
  rw [show List.countP (fun x : ℝ => decide (x = 0)) [(1 : ℝ)] = 0 by
    simp [List.countP_cons, hd]]
  norm_num

theorem mean_expr_single_zero : mean_expr [(0 : ℝ)] = none := by
  have hd : (decide (¬(0 : ℝ) = 0)) = false := by
    rw [decide_eq_false_iff_not]
    norm_num
  unfold mean_expr
  rw [show List.filter (fun x : ℝ => decide (¬x = 0)) [(0 : ℝ)] = [] by
    simp [List.filter_cons, hd]]
  norm_num

theorem zero_rate_single_zero : zero_rate [(0 : ℝ)] = 1 := by
  have hd : (decide ((0 : ℝ) = 0)) = true := by
    rw [decide_eq_true_eq]
  unfold zero_rate
  rw [show List.countP (fun x : ℝ => decide (x = 0)) [(0 : ℝ)] = 1 by
    simp [List.countP_cons, hd]]
  norm_num

theorem compute_stats_single : compute_stats [[(1 : ℝ)]] = [⟨some 0, 0⟩] := by
  unfold compute_stats
  rw [show nGenes [[(1 : ℝ)]] = 1 from rfl, show List.range 1 = [0] from rfl,
    List.map_singleton, show colEntries [[(1 : ℝ)]] 0 = [1] from rfl,
    mean_expr_single_one, zero_rate_single_one]

theorem compute_stats_pair :
    compute_stats [[(1 : ℝ), 0]] = [⟨some 0, 0⟩, ⟨none, 1⟩] := by
  unfold compute_stats
  rw [show nGenes [[(1 : ℝ), 0]] = 2 from rfl,
    show List.range 2 = [0, 1] from rfl]
  rw [List.map_cons, List.map_singleton,
    show colEntries [[(1 : ℝ), 0]] 0 = [1] from rfl,
    show colEntries [[(1 : ℝ), 0]] 1 = [0] from rfl,
    mean_expr_single_one, zero_rate_single_one,
    mean_expr_single_zero, zero_rate_single_zero]

theorem selMask_single (x : ℝ) (n : ℕ) :
    selMask [some x] n = [decide (0 < n)] := by
  have h0 : rank [some x] 0 = 0 := by
    unfold rank
    rw [show ([some x] : List (Option ℝ)).length = 1 from rfl, Finset.range_one,
      Finset.filter_singleton, beatsB_irrefl]
    simp
  calc selMask [some x] n = [decide (rank [some x] 0 < n)] := rfl
    _ = [decide (0 < n)] := by rw [h0]

theorem byNumberMask_single_valid (p : CurveParams) (n : ℕ) :
    byNumberMask p n [⟨some 0, 0⟩] = [decide (0 < n)] := by
  calc byNumberMask p n [⟨some 0, 0⟩]
      = selMask [some (curve p 0 - 0)] n := rfl
    _ = [decide (0 < n)] := selMask_single _ _

/-! Shape of the threshold and of the plotted x-range. -/

theorem thresholdOf_degenerate (b c : ℝ) (h : (1 : ℝ) ≤ c) :
    thresholdOf (decide ((1 : ℝ) ≤ c)) b = 0 := by
  unfold thresholdOf
  rw [decide_eq_true h]
  rfl

theorem thresholdOf_nondegenerate (b c : ℝ) (h : ¬(1 : ℝ) ≤ c) :
    thresholdOf (decide ((1 : ℝ) ≤ c)) b = (2 : ℝ) ^ b := by
  unfold thresholdOf
  rw [decide_eq_false h]
  rfl

theorem get_xlim_fst_zero (xs : List (Option ℝ)) :
    (get_xlim 0 xs).1 = 0 := by
  simp [get_xlim]

theorem get_xlim_fst_nonzero {t : ℝ} (ht : t ≠ 0) (xs : List (Option ℝ)) :
    (get_xlim t xs).1 = Real.logb 2 t := by
  simp [get_xlim, ht]

theorem rpow_two_ne_zero (b : ℝ) : (2 : ℝ) ^ b ≠ 0 :=
  ne_of_gt (Real.rpow_pos_of_pos two_pos b)

theorem logb_two_rpow (b : ℝ) : Real.logb 2 ((2 : ℝ) ^ b) = b :=
  Real.logb_rpow (by norm_num) (by norm_num)

/-! Evaluation of the widget's `select_genes` in ByNumber mode. -/

theorem widget_eval_byNumber (s : WState) (m : ExpressionMatrix)
    (hdata : s.data = some m) (hmode : s.byNumberMode = true)
    (hcells : ¬nCells m = 0) (hgenes : ¬nGenes m = 0) :
    widget_select_genes s =
      .ok (if (byNumberMask ⟨s.decay, s.x_offset, s.y_offset⟩ s.n_genes
              (compute_stats m)).count true < s.n_genes
           then { s with
                  selected := some (byNumberMask ⟨s.decay, s.x_offset, s.y_offset⟩
                    s.n_genes (compute_stats m)),
                  warnLessSelected := some ((byNumberMask
                    ⟨s.decay, s.x_offset, s.y_offset⟩ s.n_genes
                    (compute_stats m)).count true) }
           else { s with
                  selected := some (byNumberMask ⟨s.decay, s.x_offset, s.y_offset⟩
                    s.n_genes (compute_stats m)),
                  warnLessSelected := none }) := by
  unfold widget_select_genes
  simp only [hdata]
  rw [if_neg hcells, hmode]
  simp only [if_true]
  rw [select_genes_ok_byNumber m s.n_genes ⟨s.decay, s.x_offset, s.y_offset⟩
    (not_or.mpr ⟨hcells, hgenes⟩)]
  simp only [eq_self_iff_true, and_true]

/-! The ByNumber mask when the request covers all valid genes. -/

theorem byNumberMask_all_valid (p : CurveParams) (stats : List GeneStats)
    (n : ℕ) (h : validCount stats ≤ n) :
    (∀ i, (byNumberMask p n stats).getD i false = true ↔
      ∃ g, stats.get? i = some g ∧ g.mean_expr.isSome = true) ∧
    (byNumberMask p n stats).count true = validCount stats := by
  have hv : (validSet (stats.map (gene_score p))).card = validCount stats :=
    validCard_eq_validCount p stats
  constructor
  · intro i
    unfold byNumberMask
    rw [selMask_getD_true_iff]
    constructor
    · rintro ⟨hsome, _⟩
      cases hg : stats.get? i with
      | none =>
        rw [scores_getD_of_get?_none p stats hg] at hsome
        exact absurd hsome (by simp)
      | some g =>
        refine ⟨g, rfl, ?_⟩
        rw [scores_getD_of_get? p stats hg] at hsome
        unfold gene_score at hsome
        rwa [Option.isSome_map'] at hsome
    · rintro ⟨g, hg, hmean⟩
      have hsome : ((stats.map (gene_score p)).getD i none).isSome = true := by
        rw [scores_getD_of_get? p stats hg]
        unfold gene_score
        rwa [Option.isSome_map']
      refine ⟨hsome, ?_⟩
      have hilen : i < (stats.map (gene_score p)).length := by
        rw [List.length_map]
        obtain ⟨hlt, _⟩ := List.get?_eq_some.1 hg
        exact hlt
      have hmem : i ∈ validSet (stats.map (gene_score p)) :=
        mem_validSet.2 ⟨hilen, hsome⟩
      exact lt_of_lt_of_le (rank_lt_card _ hmem) (le_trans (le_of_eq hv) h)
  · unfold byNumberMask
    rw [count_selMask_eq_min, hv, Nat.min_eq_right h]

/-! Index description of `filter_columns`. -/

theorem zip_filter_eq_filterMap (cols : List (List ℝ)) (mask : List Bool)
    (h : mask.length = cols.length) :
    ((cols.zip mask).filter (fun p => p.2)).map (fun p => p.1) =
      (List.range cols.length).filterMap
        (fun j => if mask.getD j false = true then cols.get? j else none) := by
  induction cols generalizing mask with
  | nil => simp
  | cons c cs ih =>
    cases mask with
    | nil => exact absurd h (by simp)
    | cons b bs =>
      have hlen : bs.length = cs.length := by simpa using h
      have hrange : List.range (c :: cs).length =
          0 :: (List.range cs.length).map (· + 1) := by
        rw [show (c :: cs).length = cs.length + 1 from rfl,
          List.range_succ_eq_map]
      rw [hrange, List.filterMap_cons, List.filterMap_map]
      have hcomp : ((fun j => if (b :: bs).getD j false = true
          then (c :: cs).get? j else none) ∘ (fun x : ℕ => x + 1)) =
          (fun j => if bs.getD j false = true then cs.get? j else none) := rfl
      rw [hcomp, ← ih bs hlen]
      cases b with
      | true =>
        rw [show ((c :: cs).zip (true :: bs)) = (c, true) :: cs.zip bs from rfl,
          List.filter_cons_of_pos (by rfl), List.map_cons]
        rfl
      | false =>
        rw [show ((c :: cs).zip (false :: bs)) = (c, false) :: cs.zip bs from rfl,
          List.filter_cons_of_neg (by simp)]
        rfl

/-- The widget propagates the selector's empty-input error when the data has
rows but no genes. -/
theorem widget_empty_error (s : WState) (m : ExpressionMatrix)
    (hdata : s.data = some m) (hcell : nCells m ≠ 0) (hgene : nGenes m = 0) :
    widget_select_genes s = .error .emptyInput := by
  have herr : ∀ pol : Policy,
      select_genes m pol ⟨s.decay, s.x_offset, s.y_offset⟩ =
        .error .emptyInput := by
    intro pol
    unfold select_genes
    rw [if_pos (Or.inr hgene)]
  cases hmode : s.byNumberMode with
  | true => simp [widget_select_genes, hdata, hcell, hmode, herr]
  | false => simp [widget_select_genes, hdata, hcell, hmode, herr]

/-! The claims. -/

/-- C3: `filter_columns` fails with `dimensionMismatch` exactly when the mask
length differs from the column count; with agreeing lengths it returns the
dataset retaining, in order, exactly the columns at indices where the mask
is true. -/
theorem C3_filter_columns_spec (cols : List (List ℝ)) (mask : List Bool) :
    filter_columns cols mask =
      if mask.length = cols.length then
        .ok ((List.range cols.length).filterMap
          (fun j => if mask.getD j false = true then cols.get? j else none))
      else .error .dimensionMismatch := by
  unfold filter_columns
  by_cases h : mask.length = cols.length
  · rw [if_pos h, if_pos h, zip_filter_eq_filterMap cols mask h]
  · rw [if_neg h, if_neg h]

/-- C6: every successful `select_genes` run returns a mask whose length is
the number of genes of the input matrix. -/
theorem C6_mask_length (m : ExpressionMatrix) (policy : Policy)
    (sticky : CurveParams) (r : SelectionResult)
    (h : select_genes m policy sticky = .ok r) :
    r.mask.length = nGenes m := by
  cases policy with
  | byNumber n =>
    rw [select_genes_byNumber_inv h]
    show (byNumberMask sticky n (compute_stats m)).length = nGenes m
    unfold byNumberMask
    rw [selMask_length, List.length_map, compute_stats_length]
  | byEquation a b c =>
    rw [select_genes_byEquation_inv h]
    show (byEquationMask ⟨a, b, c⟩ (compute_stats m)).length = nGenes m
    rw [byEquationMask_length, compute_stats_length]

/-- C6 witness: a concrete 1-cell, 1-gene run. -/
theorem C6_mask_length_witness :
    select_genes [[(1 : ℝ)]] (.byEquation 1 0 0) ⟨1, 5, 0⟩ =
      .ok ⟨byEquationMask ⟨1, 0, 0⟩ (compute_stats [[(1 : ℝ)]]),
           compute_stats [[(1 : ℝ)]], ⟨1, 0, 0⟩,
           thresholdOf (decide ((1 : ℝ) ≤ 0)) 0⟩ ∧
    (byEquationMask ⟨1, 0, 0⟩ (compute_stats [[(1 : ℝ)]])).length =
      nGenes [[(1 : ℝ)]] := by
  have hne : ¬(nCells [[(1 : ℝ)]] = 0 ∨ nGenes [[(1 : ℝ)]] = 0) := by
    simp [nCells, nGenes]
  have hok := select_genes_ok_byEquation [[(1 : ℝ)]] 1 0 0 ⟨1, 5, 0⟩ hne
  exact ⟨hok, C6_mask_length [[(1 : ℝ)]] _ _ _ hok⟩

/-- C2: under ByEquation, exactly the genes whose observed `zero_rate` is
strictly below `exp (-decay * (mean_expr - x_offset)) + y_offset` are
selected, and a gene with NaN `mean_expr` is never selected. -/
theorem C2_byEquation_strictly_below (m : ExpressionMatrix) (a b c : ℝ)
    (sticky : CurveParams) (r : SelectionResult)
    (h : select_genes m (.byEquation a b c) sticky = .ok r) (i : ℕ) :
    (r.mask.getD i false = true ↔
      ∃ g μ, r.stats.get? i = some g ∧ g.mean_expr = some μ ∧
        g.zero_rate < Real.exp (-a * (μ - b)) + c) ∧
    (∀ g, r.stats.get? i = some g → g.mean_expr = none →
      r.mask.getD i false = false) := by
  have hr := select_genes_byEquation_inv h
  have hm : r.mask = byEquationMask ⟨a, b, c⟩ (compute_stats m) := by rw [hr]
  have hs : r.stats = compute_stats m := by rw [hr]
  rw [hm, hs]
  constructor
  · cases hg : (compute_stats m).get? i with
    | none =>
      rw [byEquationMask_getD_of_none _ _ hg]
      simp
    | some g =>
      rw [byEquationMask_getD _ _ hg, belowCurve_true_iff]
      constructor
      · rintro ⟨μ, hμ, hlt⟩
        exact ⟨g, μ, rfl, hμ, hlt⟩
      · rintro ⟨g', μ, hg', hμ, hlt⟩
        injection hg' with hgg
        subst hgg
        exact ⟨μ, hμ, hlt⟩
  · intro g hg hnone
    rw [byEquationMask_getD _ _ hg]
    unfold belowCurve
    rw [hnone]

/-- C2 witness: the single gene of `[[1]]` has `mean_expr = 0`,
`zero_rate = 0` and lies strictly below the curve `exp (-(x - 0)) + 0`. -/
theorem C2_byEquation_strictly_below_witness :
    select_genes [[(1 : ℝ)]] (.byEquation 1 0 0) ⟨1, 5, 0⟩ =
      .ok ⟨byEquationMask ⟨1, 0, 0⟩ (compute_stats [[(1 : ℝ)]]),
           compute_stats [[(1 : ℝ)]], ⟨1, 0, 0⟩,
           thresholdOf (decide ((1 : ℝ) ≤ 0)) 0⟩ ∧
    (((byEquationMask ⟨1, 0, 0⟩ (compute_stats [[(1 : ℝ)]])).getD 0 false = true ↔
        ∃ g μ, (compute_stats [[(1 : ℝ)]]).get? 0 = some g ∧
          g.mean_expr = some μ ∧
          g.zero_rate < Real.exp (-1 * (μ - 0)) + 0) ∧
      (∀ g, (compute_stats [[(1 : ℝ)]]).get? 0 = some g → g.mean_expr = none →
        (byEquationMask ⟨1, 0, 0⟩ (compute_stats [[(1 : ℝ)]])).getD 0 false =
          false)) := by
  have hne : ¬(nCells [[(1 : ℝ)]] = 0 ∨ nGenes [[(1 : ℝ)]] = 0) := by
    simp [nCells, nGenes]
  have hok := select_genes_ok_byEquation [[(1 : ℝ)]] 1 0 0 ⟨1, 5, 0⟩ hne
  exact ⟨hok, C2_byEquation_strictly_below [[(1 : ℝ)]] 1 0 0 ⟨1, 5, 0⟩ _ hok 0⟩

/-- C5: with `decay` and `x_offset` fixed, raising the `y_offset` never
removes a gene from the ByEquation selection. -/
theorem C5_y_offset_monotone (m : ExpressionMatrix) (a b c₁ c₂ : ℝ)
    (sticky : CurveParams) (r₁ r₂ : SelectionResult) (i : ℕ)
    (hc : c₁ ≤ c₂)
    (h₁ : select_genes m (.byEquation a b c₁) sticky = .ok r₁)
    (h₂ : select_genes m (.byEquation a b c₂) sticky = .ok r₂)
    (hsel : r₁.mask.getD i false = true) :
    r₂.mask.getD i false = true := by
  have hm₁ : r₁.mask = byEquationMask ⟨a, b, c₁⟩ (compute_stats m) := by
    rw [select_genes_byEquation_inv h₁]
  have hm₂ : r₂.mask = byEquationMask ⟨a, b, c₂⟩ (compute_stats m) := by
    rw [select_genes_byEquation_inv h₂]
  rw [hm₁] at hsel
  rw [hm₂]
  cases hg : (compute_stats m).get? i with
  | none =>
    rw [byEquationMask_getD_of_none _ _ hg] at hsel
    exact Bool.noConfusion hsel
  | some g =>
    rw [byEquationMask_getD _ _ hg] at hsel
    rw [byEquationMask_getD _ _ hg]
    obtain ⟨μ, hμ, hlt⟩ := (belowCurve_true_iff _ _).1 hsel
    refine (belowCurve_true_iff _ _).2 ⟨μ, hμ, ?_⟩
    have hlt' : g.zero_rate < Real.exp (-a * (μ - b)) + c₁ := hlt
    show g.zero_rate < Real.exp (-a * (μ - b)) + c₂
    linarith

/-- C5 witness: the gene of `[[1]]` is selected at `y_offset = 0` and stays
selected at `y_offset = 1`. -/
theorem C5_y_offset_monotone_witness :
    (0 : ℝ) ≤ 1 ∧
    select_genes [[(1 : ℝ)]] (.byEquation 1 0 0) ⟨1, 5, 0⟩ =
      .ok ⟨byEquationMask ⟨1, 0, 0⟩ (compute_stats [[(1 : ℝ)]]),
           compute_stats [[(1 : ℝ)]], ⟨1, 0, 0⟩,
           thresholdOf (decide ((1 : ℝ) ≤ 0)) 0⟩ ∧
    select_genes [[(1 : ℝ)]] (.byEquation 1 0 1) ⟨1, 5, 0⟩ =
      .ok ⟨byEquationMask ⟨1, 0, 1⟩ (compute_stats [[(1 : ℝ)]]),
           compute_stats [[(1 : ℝ)]], ⟨1, 0, 1⟩,
           thresholdOf (decide ((1 : ℝ) ≤ 1)) 0⟩ ∧
    (byEquationMask ⟨1, 0, 0⟩ (compute_stats [[(1 : ℝ)]])).getD 0 false =
      true ∧
    (byEquationMask ⟨1, 0, 1⟩ (compute_stats [[(1 : ℝ)]])).getD 0 false =
      true := by
  have hne : ¬(nCells [[(1 : ℝ)]] = 0 ∨ nGenes [[(1 : ℝ)]] = 0) := by
    simp [nCells, nGenes]
  have hok₁ := select_genes_ok_byEquation [[(1 : ℝ)]] 1 0 0 ⟨1, 5, 0⟩ hne
  have hok₂ := select_genes_ok_byEquation [[(1 : ℝ)]] 1 0 1 ⟨1, 5, 0⟩ hne
  have hg : (compute_stats [[(1 : ℝ)]]).get? 0 = some ⟨some 0, 0⟩ := by
    rw [compute_stats_single]
    rfl
  have hsel : (byEquationMask ⟨1, 0, 0⟩ (compute_stats [[(1 : ℝ)]])).getD 0
      false = true := by
    rw [byEquationMask_getD _ _ hg]
    refine (belowCurve_true_iff _ _).2 ⟨0, rfl, ?_⟩
    show (0 : ℝ) < Real.exp (-1 * (0 - 0)) + 0
    norm_num [Real.exp_zero]
  exact ⟨by norm_num, hok₁, hok₂, hsel,
    C5_y_offset_monotone [[(1 : ℝ)]] 1 0 0 1 ⟨1, 5, 0⟩ _ _ 0 (by norm_num)
      hok₁ hok₂ hsel⟩

/-- C7: a matrix with zero cells or zero genes makes `select_genes` fail
with `emptyInput` (and only such a matrix does: otherwise it returns a
selection), and the widget propagates the error. -/
theorem C7_empty_input_error (m : ExpressionMatrix) (p : Policy)
    (sticky : CurveParams) :
    ((nCells m = 0 ∨ nGenes m = 0) →
      select_genes m p sticky = .error .emptyInput) ∧
    (¬(nCells m = 0 ∨ nGenes m = 0) →
      ∃ r, select_genes m p sticky = .ok r) ∧
    (∀ s : WState, s.data = some m → nCells m ≠ 0 → nGenes m = 0 →
      widget_select_genes s = .error .emptyInput) := by
  refine ⟨?_, ?_, ?_⟩
  · intro he
    unfold select_genes
    rw [if_pos he]
  · intro he
    cases p with
    | byNumber n => exact ⟨_, select_genes_ok_byNumber m n sticky he⟩
    | byEquation a b c => exact ⟨_, select_genes_ok_byEquation m a b c sticky he⟩
  · intro s hdata hcell hgene
    exact widget_empty_error s m hdata hcell hgene

/-- C7 witness: `[[]]` has one cell and zero genes; the core errors and a
widget holding it errors too. -/
theorem C7_empty_input_error_witness :
    ((nCells [([] : List ℝ)] = 0 ∨ nGenes [([] : List ℝ)] = 0) →
      select_genes [([] : List ℝ)] (.byNumber 3) ⟨1, 5, 0⟩ =
        .error .emptyInput) ∧
    (¬(nCells [([] : List ℝ)] = 0 ∨ nGenes [([] : List ℝ)] = 0) →
      ∃ r, select_genes [([] : List ℝ)] (.byNumber 3) ⟨1, 5, 0⟩ = .ok r) ∧
    (∀ s : WState, s.data = some [([] : List ℝ)] →
      nCells [([] : List ℝ)] ≠ 0 → nGenes [([] : List ℝ)] = 0 →
      widget_select_genes s = .error .emptyInput) :=
  C7_empty_input_error [([] : List ℝ)] (.byNumber 3) ⟨1, 5, 0⟩

/-- Concrete widget run: one cell, one gene, ByNumber(1).  The single valid
gene is selected and no warning is raised. -/
theorem widget_eval_concrete :
    widget_select_genes ⟨some [[(1 : ℝ)]], none, 1, 5, 0, 1, true, none⟩ =
      .ok ⟨some [[(1 : ℝ)]], some [true], 1, 5, 0, 1, true, none⟩ := by
  have heval := widget_eval_byNumber
    ⟨some [[(1 : ℝ)]], none, 1, 5, 0, 1, true, none⟩ [[(1 : ℝ)]] rfl rfl
    (by simp [nCells]) (by simp [nGenes])
  rw [heval]
  have hmask : byNumberMask ⟨1, 5, 0⟩ 1 (compute_stats [[(1 : ℝ)]]) =
      [true] := by
    rw [compute_stats_single, byNumberMask_single_valid]
    rfl
  have hmask' : byNumberMask
      ⟨(⟨some [[(1 : ℝ)]], none, 1, 5, 0, 1, true, none⟩ : WState).decay,
       (⟨some [[(1 : ℝ)]], none, 1, 5, 0, 1, true, none⟩ : WState).x_offset,
       (⟨some [[(1 : ℝ)]], none, 1, 5, 0, 1, true, none⟩ : WState).y_offset⟩
      (⟨some [[(1 : ℝ)]], none, 1, 5, 0, 1, true, none⟩ : WState).n_genes
      (compute_stats [[(1 : ℝ)]]) = [true] := hmask
  rw [hmask']
  rw [if_neg (by norm_num)]

/-- C8: the curve coefficients returned by `select_genes` are the supplied
ones under ByEquation and the sticky ones under ByNumber, and the widget's
stored coefficients are unchanged by a ByNumber run. -/
theorem C8_params_passthrough (m : ExpressionMatrix) (sticky : CurveParams) :
    (∀ a b c r, select_genes m (.byEquation a b c) sticky = .ok r →
      r.params.decay = a ∧ r.params.x_offset = b ∧ r.params.y_offset = c) ∧
    (∀ n r, select_genes m (.byNumber n) sticky = .ok r →
      r.params = sticky) ∧
    (∀ s s' : WState, s.data = some m → s.byNumberMode = true →
      widget_select_genes s = .ok s' →
      s'.decay = s.decay ∧ s'.x_offset = s.x_offset ∧
        s'.y_offset = s.y_offset) := by
  refine ⟨?_, ?_, ?_⟩
  · intro a b c r h
    rw [select_genes_byEquation_inv h]
    exact ⟨rfl, rfl, rfl⟩
  · intro n r h
    rw [select_genes_byNumber_inv h]
  · intro s s' hdata hmode hws
    by_cases hcell : nCells m = 0
    · unfold widget_select_genes at hws
      simp only [hdata] at hws
      rw [if_pos hcell] at hws
      injection hws with hws
      subst hws
      exact ⟨rfl, rfl, rfl⟩
    · by_cases hgene : nGenes m = 0
      · rw [widget_empty_error s m hdata hcell hgene] at hws
        exact Except.noConfusion hws
      · have heval := widget_eval_byNumber s m hdata hmode hcell hgene
        rw [heval] at hws
        injection hws with hws
        split at hws <;> subst hws <;> exact ⟨rfl, rfl, rfl⟩

/-- C8 witness: concrete ByEquation pass-through, ByNumber stickiness, and
a widget run leaving the stored coefficients unchanged. -/
theorem C8_params_passthrough_witness :
    select_genes [[(1 : ℝ)]] (.byEquation 2 3 (1 / 2)) ⟨1, 5, 0⟩ =
      .ok ⟨byEquationMask ⟨2, 3, 1 / 2⟩ (compute_stats [[(1 : ℝ)]]),
           compute_stats [[(1 : ℝ)]], ⟨2, 3, 1 / 2⟩,
           thresholdOf (decide ((1 : ℝ) ≤ 1 / 2)) 3⟩ ∧
    ((⟨byEquationMask ⟨2, 3, 1 / 2⟩ (compute_stats [[(1 : ℝ)]]),
        compute_stats [[(1 : ℝ)]], ⟨2, 3, 1 / 2⟩,
        thresholdOf (decide ((1 : ℝ) ≤ 1 / 2)) 3⟩ : SelectionResult).params.decay
      = 2) ∧
    select_genes [[(1 : ℝ)]] (.byNumber 1) ⟨1, 5, 0⟩ =
      .ok ⟨byNumberMask ⟨1, 5, 0⟩ 1 (compute_stats [[(1 : ℝ)]]),
           compute_stats [[(1 : ℝ)]], ⟨1, 5, 0⟩,
           thresholdOf (decide ((1 : ℝ) ≤ (0 : ℝ))) 5⟩ ∧
    ((⟨byNumberMask ⟨1, 5, 0⟩ 1 (compute_stats [[(1 : ℝ)]]),
        compute_stats [[(1 : ℝ)]], ⟨1, 5, 0⟩,
        thresholdOf (decide ((1 : ℝ) ≤ (0 : ℝ))) 5⟩ : SelectionResult).params
      = ⟨1, 5, 0⟩) ∧
    ((⟨some [[(1 : ℝ)]], some [true], 1, 5, 0, 1, true, none⟩ : WState).decay
        = (⟨some [[(1 : ℝ)]], none, 1, 5, 0, 1, true, none⟩ : WState).decay ∧
      (⟨some [[(1 : ℝ)]], some [true], 1, 5, 0, 1, true, none⟩ : WState).x_offset
        = (⟨some [[(1 : ℝ)]], none, 1, 5, 0, 1, true, none⟩ : WState).x_offset ∧
      (⟨some [[(1 : ℝ)]], some [true], 1, 5, 0, 1, true, none⟩ : WState).y_offset
        = (⟨some [[(1 : ℝ)]], none, 1, 5, 0, 1, true, none⟩ : WState).y_offset) := by
  have hne : ¬(nCells [[(1 : ℝ)]] = 0 ∨ nGenes [[(1 : ℝ)]] = 0) := by
    simp [nCells, nGenes]
  have hokE := select_genes_ok_byEquation [[(1 : ℝ)]] 2 3 (1 / 2) ⟨1, 5, 0⟩ hne
  have hokN := select_genes_ok_byNumber [[(1 : ℝ)]] 1 ⟨1, 5, 0⟩ hne
  refine ⟨hokE,
    ((C8_params_passthrough [[(1 : ℝ)]] ⟨1, 5, 0⟩).1 2 3 (1 / 2) _ hokE).1,
    hokN,
    (C8_params_passthrough [[(1 : ℝ)]] ⟨1, 5, 0⟩).2.1 1 _ hokN,
    (C8_params_passthrough [[(1 : ℝ)]] ⟨1, 5, 0⟩).2.2
      ⟨some [[(1 : ℝ)]], none, 1, 5, 0, 1, true, none⟩
      ⟨some [[(1 : ℝ)]], some [true], 1, 5, 0, 1, true, none⟩
      rfl rfl widget_eval_concrete⟩

/-- C9: the threshold returned by `select_genes` is 0 in the degenerate
y_offset regime and `2 ^ x_offset` otherwise, and `get_xlim` starts the
plotted x-range at `log2 threshold` for a nonzero threshold (hence at
`x_offset`) and at 0 otherwise. -/
theorem C9_threshold_bound (m : ExpressionMatrix) (p : Policy)
    (sticky : CurveParams) (r : SelectionResult) (xs : List (Option ℝ))
    (h : select_genes m p sticky = .ok r) :
    ((1 : ℝ) ≤ r.params.y_offset → r.threshold = 0) ∧
    (¬(1 : ℝ) ≤ r.params.y_offset →
      r.threshold = (2 : ℝ) ^ r.params.x_offset) ∧
    (r.threshold = 0 → (get_xlim r.threshold xs).1 = 0) ∧
    (r.threshold ≠ 0 →
      (get_xlim r.threshold xs).1 = Real.logb 2 r.threshold) ∧
    (¬(1 : ℝ) ≤ r.params.y_offset →
      (get_xlim r.threshold xs).1 = r.params.x_offset) := by
  have hthr : r.threshold =
      thresholdOf (decide ((1 : ℝ) ≤ r.params.y_offset)) r.params.x_offset := by
    cases p with
    | byNumber n => rw [select_genes_byNumber_inv h]
    | byEquation a b c => rw [select_genes_byEquation_inv h]
  refine ⟨?_, ?_, ?_, ?_, ?_⟩
  · intro hge
    rw [hthr, thresholdOf_degenerate _ _ hge]
  · intro hlt
    rw [hthr, thresholdOf_nondegenerate _ _ hlt]
  · intro h0
    rw [h0]
    exact get_xlim_fst_zero xs
  · intro hne
    exact get_xlim_fst_nonzero hne xs
  · intro hlt
    have ht : r.threshold = (2 : ℝ) ^ r.params.x_offset :=
      hthr.trans (thresholdOf_nondegenerate _ _ hlt)
    rw [ht, get_xlim_fst_nonzero (rpow_two_ne_zero _) xs, logb_two_rpow]

/-- C9 witness: a concrete run with `y_offset = 0`; the threshold is
`2 ^ 0` and the plotted range starts at `x_offset = 0`. -/
theorem C9_threshold_bound_witness :
    select_genes [[(1 : ℝ)]] (.byEquation 1 0 0) ⟨1, 5, 0⟩ =
      .ok ⟨byEquationMask ⟨1, 0, 0⟩ (compute_stats [[(1 : ℝ)]]),
           compute_stats [[(1 : ℝ)]], ⟨1, 0, 0⟩,
           thresholdOf (decide ((1 : ℝ) ≤ 0)) 0⟩ ∧
    (((1 : ℝ) ≤ (0 : ℝ) →
        (⟨byEquationMask ⟨1, 0, 0⟩ (compute_stats [[(1 : ℝ)]]),
          compute_stats [[(1 : ℝ)]], ⟨1, 0, 0⟩,
          thresholdOf (decide ((1 : ℝ) ≤ 0)) 0⟩ : SelectionResult).threshold
          = 0) ∧
      (¬(1 : ℝ) ≤ (0 : ℝ) →
        (⟨byEquationMask ⟨1, 0, 0⟩ (compute_stats [[(1 : ℝ)]]),
          compute_stats [[(1 : ℝ)]], ⟨1, 0, 0⟩,
          thresholdOf (decide ((1 : ℝ) ≤ 0)) 0⟩ : SelectionResult).threshold
          = (2 : ℝ) ^ (0 : ℝ)) ∧
      ((⟨byEquationMask ⟨1, 0, 0⟩ (compute_stats [[(1 : ℝ)]]),
          compute_stats [[(1 : ℝ)]], ⟨1, 0, 0⟩,
          thresholdOf (decide ((1 : ℝ) ≤ 0)) 0⟩ : SelectionResult).threshold
          = 0 →
        (get_xlim (⟨byEquationMask ⟨1, 0, 0⟩ (compute_stats [[(1 : ℝ)]]),
          compute_stats [[(1 : ℝ)]], ⟨1, 0, 0⟩,
          thresholdOf (decide ((1 : ℝ) ≤ 0)) 0⟩ : SelectionResult).threshold
          []).1 = 0) ∧
      ((⟨byEquationMask ⟨1, 0, 0⟩ (compute_stats [[(1 : ℝ)]]),
          compute_stats [[(1 : ℝ)]], ⟨1, 0, 0⟩,
          thresholdOf (decide ((1 : ℝ) ≤ 0)) 0⟩ : SelectionResult).threshold
          ≠ 0 →
        (get_xlim (⟨byEquationMask ⟨1, 0, 0⟩ (compute_stats [[(1 : ℝ)]]),
          compute_stats [[(1 : ℝ)]], ⟨1, 0, 0⟩,
          thresholdOf (decide ((1 : ℝ) ≤ 0)) 0⟩ : SelectionResult).threshold
          []).1 = Real.logb 2
            (⟨byEquationMask ⟨1, 0, 0⟩ (compute_stats [[(1 : ℝ)]]),
              compute_stats [[(1 : ℝ)]], ⟨1, 0, 0⟩,
              thresholdOf (decide ((1 : ℝ) ≤ 0)) 0⟩ : SelectionResult).threshold) ∧
      (¬(1 : ℝ) ≤ (0 : ℝ) →
        (get_xlim (⟨byEquationMask ⟨1, 0, 0⟩ (compute_stats [[(1 : ℝ)]]),
          compute_stats [[(1 : ℝ)]], ⟨1, 0, 0⟩,
          thresholdOf (decide ((1 : ℝ) ≤ 0)) 0⟩ : SelectionResult).threshold
          []).1 = 0)) := by
  have hne : ¬(nCells [[(1 : ℝ)]] = 0 ∨ nGenes [[(1 : ℝ)]] = 0) := by
    simp [nCells, nGenes]
  have hok := select_genes_ok_byEquation [[(1 : ℝ)]] 1 0 0 ⟨1, 5, 0⟩ hne
  exact ⟨hok, C9_threshold_bound [[(1 : ℝ)]] (.byEquation 1 0 0) ⟨1, 5, 0⟩ _
    [] hok⟩

/-- C10: with falsy input data (absent, or a table with zero rows) the
widget clears the warning, keeps the selection `None`, raises nothing, and
`commit` sends `None` on the output channel. -/
theorem C10_falsy_input_noop (s : WState)
    (hfalsy : s.data = none ∨ ∃ m, s.data = some m ∧ nCells m = 0)
    (hsel : s.selected = none) :
    widget_select_genes s = .ok { s with warnLessSelected := none } ∧
    ({ s with warnLessSelected := none } : WState).selected = none ∧
    widget_commit { s with warnLessSelected := none } = none := by
  have hws : widget_select_genes s = .ok { s with warnLessSelected := none } := by
    rcases hfalsy with hnone | ⟨m, hsome, hzero⟩
    · unfold widget_select_genes
      rw [hnone]
    · unfold widget_select_genes
      simp only [hsome]
      rw [if_pos hzero]
  refine ⟨hws, hsel, ?_⟩
  unfold widget_commit
  rw [show ({ s with warnLessSelected := none } : WState).selected = none
    from hsel]

/-- C10 witness: a widget with no input data. -/
theorem C10_falsy_input_noop_witness :
    widget_select_genes ⟨none, none, 1, 5, 0, 10, true, some 3⟩ =
      .ok ⟨none, none, 1, 5, 0, 10, true, none⟩ ∧
    ((⟨none, none, 1, 5, 0, 10, true, none⟩ : WState).selected = none) ∧
    widget_commit ⟨none, none, 1, 5, 0, 10, true, none⟩ = none :=
  C10_falsy_input_noop ⟨none, none, 1, 5, 0, 10, true, some 3⟩
    (Or.inl rfl) rfl

/-- C1: under ByNumber(n) with `n` below the valid gene count, exactly `n`
genes are selected, every selected gene's distance-below-the-curve score is
at least that of every unselected valid gene, and among tied scores the
smaller column index is preferred. -/
theorem C1_byNumber_selects_top_n (m : ExpressionMatrix) (n : ℕ)
    (sticky : CurveParams) (r : SelectionResult)
    (hok : select_genes m (.byNumber n) sticky = .ok r)
    (hn : n < validCount r.stats) :
    r.mask.count true = n ∧
    (∀ i j gi gj a b, r.mask.getD i false = true →
      r.mask.getD j false = false → r.stats.get? i = some gi →
      r.stats.get? j = some gj → gene_score sticky gi = some a →
      gene_score sticky gj = some b → b ≤ a) ∧
    (∀ i j gi gj v, i < j → r.stats.get? i = some gi →
      r.stats.get? j = some gj → gene_score sticky gi = some v →
      gene_score sticky gj = some v → r.mask.getD j false = true →
      r.mask.getD i false = true) := by
  have hr := select_genes_byNumber_inv hok
  have hm : r.mask = selMask (r.stats.map (gene_score sticky)) n := by
    rw [hr]
    rfl
  have hv : (validSet (r.stats.map (gene_score sticky))).card =
      validCount r.stats := validCard_eq_validCount sticky r.stats
  refine ⟨?_, ?_, ?_⟩
  · rw [hm, count_selMask_eq_min, hv, Nat.min_eq_left (Nat.le_of_lt hn)]
  · intro i j gi gj a b hit hjf hgi hgj hsa hsb
    have hia : (r.stats.map (gene_score sticky)).getD i none = some a := by
      rw [scores_getD_of_get? sticky r.stats hgi, hsa]
    have hjb : (r.stats.map (gene_score sticky)).getD j none = some b := by
      rw [scores_getD_of_get? sticky r.stats hgj, hsb]
    rw [hm] at hit
    have hit' := (selMask_getD_true_iff _ n i).1 hit
    have hrankj : ¬(rank (r.stats.map (gene_score sticky)) j < n) := by
      intro hlt
      have hjt := (selMask_getD_true_iff _ n j).2 ⟨by rw [hjb]; rfl, hlt⟩
      rw [← hm] at hjt
      rw [hjf] at hjt
      exact Bool.noConfusion hjt
    by_contra hab
    push_neg at hab
    have hbeats : beatsB (r.stats.map (gene_score sticky)) j i = true :=
      (beatsB_true_iff _ j i).2 ⟨b, a, hjb, hia, Or.inl hab⟩
    exact hrankj (lt_trans (rank_lt_rank _ hbeats) hit'.2)
  · intro i j gi gj v hij hgi hgj hvi hvj hjt
    have hia : (r.stats.map (gene_score sticky)).getD i none = some v := by
      rw [scores_getD_of_get? sticky r.stats hgi, hvi]
    have hjb : (r.stats.map (gene_score sticky)).getD j none = some v := by
      rw [scores_getD_of_get? sticky r.stats hgj, hvj]
    rw [hm] at hjt
    have hjt' := (selMask_getD_true_iff _ n j).1 hjt
    have hbeats : beatsB (r.stats.map (gene_score sticky)) i j = true :=
      (beatsB_true_iff _ i j).2 ⟨v, v, hia, hjb, Or.inr ⟨rfl, hij⟩⟩
    rw [hm]
    exact (selMask_getD_true_iff _ n i).2
      ⟨by rw [hia]; rfl, lt_trans (rank_lt_rank _ hbeats) hjt'.2⟩

/-- C1 witness: the matrix `[[1, 0]]` has one valid gene; ByNumber(0)
selects none of them. -/
theorem C1_byNumber_selects_top_n_witness :
    select_genes [[(1 : ℝ), 0]] (.byNumber 0) ⟨1, 5, 0⟩ =
      .ok ⟨byNumberMask ⟨1, 5, 0⟩ 0 (compute_stats [[(1 : ℝ), 0]]),
           compute_stats [[(1 : ℝ), 0]], ⟨1, 5, 0⟩,
           thresholdOf (decide ((1 : ℝ) ≤ (0 : ℝ))) 5⟩ ∧
    0 < validCount (compute_stats [[(1 : ℝ), 0]]) ∧
    (byNumberMask ⟨1, 5, 0⟩ 0 (compute_stats [[(1 : ℝ), 0]])).count true =
      0 := by
  have hne : ¬(nCells [[(1 : ℝ), 0]] = 0 ∨ nGenes [[(1 : ℝ), 0]] = 0) := by
    simp [nCells, nGenes]
  have hok := select_genes_ok_byNumber [[(1 : ℝ), 0]] 0 ⟨1, 5, 0⟩ hne
  have hval : validCount (compute_stats [[(1 : ℝ), 0]]) = 1 := by
    rw [compute_stats_pair]
    rfl
  refine ⟨hok, by rw [hval]; omega, ?_⟩
  exact (C1_byNumber_selects_top_n [[(1 : ℝ), 0]] 0 ⟨1, 5, 0⟩ _ hok
    (by rw [hval] at *; exact Nat.zero_lt_one)).1

/-- C4 counterexample: with `[[1]]` and ByNumber(1) the requested count
equals the valid gene count, all valid genes are selected, yet no
fewer-selected warning is signalled — the claim's `n ≥ valid count`
condition is too weak for the warning clause. -/
theorem C4_counterexample :
    widget_select_genes ⟨some [[(1 : ℝ)]], none, 1, 5, 0, 1, true, none⟩ =
      .ok ⟨some [[(1 : ℝ)]], some [true], 1, 5, 0, 1, true, none⟩ ∧
    validCount (compute_stats [[(1 : ℝ)]]) ≤
      (⟨some [[(1 : ℝ)]], none, 1, 5, 0, 1, true, none⟩ : WState).n_genes ∧
    (⟨some [[(1 : ℝ)]], some [true], 1, 5, 0, 1, true, none⟩ :
      WState).warnLessSelected = none := by
  refine ⟨widget_eval_concrete, ?_, rfl⟩
  rw [compute_stats_single]
  exact le_refl 1

/-- C4 (amended): with `n` at least the valid gene count the widget run
succeeds, selects exactly the valid genes, and signals the fewer-selected
warning (count = genes selected) exactly when `n` strictly exceeds the
valid gene count. -/
theorem C4_all_valid_selected (s : WState) (m : ExpressionMatrix)
    (hdata : s.data = some m) (hmode : s.byNumberMode = true)
    (hcells : nCells m ≠ 0) (hgenes : nGenes m ≠ 0)
    (hvalid : validCount (compute_stats m) ≤ s.n_genes) :
    (∃ s', widget_select_genes s = .ok s') ∧
    (∀ s', widget_select_genes s = .ok s' →
      s'.selected = some (byNumberMask ⟨s.decay, s.x_offset, s.y_offset⟩
        s.n_genes (compute_stats m)) ∧
      (∀ i, (byNumberMask ⟨s.decay, s.x_offset, s.y_offset⟩ s.n_genes
          (compute_stats m)).getD i false = true ↔
        ∃ g, (compute_stats m).get? i = some g ∧ g.mean_expr.isSome = true) ∧
      (byNumberMask ⟨s.decay, s.x_offset, s.y_offset⟩ s.n_genes
        (compute_stats m)).count true = validCount (compute_stats m) ∧
      s'.warnLessSelected = (if validCount (compute_stats m) < s.n_genes
        then some (validCount (compute_stats m)) else none)) := by
  have heval := widget_eval_byNumber s m hdata hmode hcells hgenes
  obtain ⟨hchar, hcount⟩ := byNumberMask_all_valid
    ⟨s.decay, s.x_offset, s.y_offset⟩ (compute_stats m) s.n_genes hvalid
  refine ⟨⟨_, heval⟩, ?_⟩
  intro s' hws
  rw [heval] at hws
  injection hws with hws
  by_cases hc : (byNumberMask ⟨s.decay, s.x_offset, s.y_offset⟩ s.n_genes
      (compute_stats m)).count true < s.n_genes
  · rw [if_pos hc] at hws
    subst hws
    refine ⟨rfl, hchar, hcount, ?_⟩
    rw [← hcount, if_pos hc]
  · rw [if_neg hc] at hws
    subst hws
    refine ⟨rfl, hchar, hcount, ?_⟩
    rw [← hcount, if_neg hc]

/-- C4 witness: `[[1]]` with ByNumber(2): both the one valid gene is
selected and the warning with count 1 is signalled. -/
theorem C4_all_valid_selected_witness :
    (∃ s', widget_select_genes
      ⟨some [[(1 : ℝ)]], none, 1, 5, 0, 2, true, none⟩ = .ok s') ∧
    (∀ s', widget_select_genes
        ⟨some [[(1 : ℝ)]], none, 1, 5, 0, 2, true, none⟩ = .ok s' →
      s'.selected = some (byNumberMask ⟨1, 5, 0⟩ 2
        (compute_stats [[(1 : ℝ)]])) ∧
      (∀ i, (byNumberMask ⟨1, 5, 0⟩ 2
          (compute_stats [[(1 : ℝ)]])).getD i false = true ↔
        ∃ g, (compute_stats [[(1 : ℝ)]]).get? i = some g ∧
          g.mean_expr.isSome = true) ∧
      (byNumberMask ⟨1, 5, 0⟩ 2 (compute_stats [[(1 : ℝ)]])).count true =
        validCount (compute_stats [[(1 : ℝ)]]) ∧
      s'.warnLessSelected =
        (if validCount (compute_stats [[(1 : ℝ)]]) < 2
         then some (validCount (compute_stats [[(1 : ℝ)]])) else none)) := by
  have hval : validCount (compute_stats [[(1 : ℝ)]]) = 1 := by
    rw [compute_stats_single]
    rfl
  exact C4_all_valid_selected ⟨some [[(1 : ℝ)]], none, 1, 5, 0, 2, true, none⟩
    [[(1 : ℝ)]] rfl rfl (by simp [nCells]) (by simp [nGenes])
    (by show validCount (compute_stats [[(1 : ℝ)]]) ≤ 2; rw [hval]; omega)

end Dropout
